import Mathlib

/-!
Verification of the galaxy-morphology experiment script (`galaxy.py`).

The script trains a variational autoencoder (`GalaxyVAE`) and a
physics-informed network (`GalaxyPINN`) on 9-dimensional morphology
feature vectors scaled to [0,1], evaluates both with MSE/RMSE/accuracy/F1
metrics, simulates "evolution" over a time axis in [0,1], and renders
spiral-galaxy images.

This file shallowly embeds the numeric core of that script over the reals
(network layers, the physics-residual loss, the VAE loss, the evaluation
and simulation procedures, the renderer's derived parameters) and proves
the specification's claims about it.  Random draws (the reparameterization
noise and the renderer's positional jitter) are passed in explicitly as
streams; the rest of the code is deterministic and is embedded as pure
functions.
-/

namespace Galaxy

/-- A dense vector of `n` real entries (one row of a tensor). -/
abbrev Vec (n : ℕ) := Fin n → ℝ

/-- A dense `m × n` real matrix (a 2-d tensor, or a layer's weights). -/
abbrev Mat (m n : ℕ) := Fin m → Fin n → ℝ

/-- `nn.Linear`: affine map `v ↦ W v + b`. -/
noncomputable def linear {m n : ℕ} (W : Mat m n) (b : Vec m) (v : Vec n) : Vec m :=
  fun i => (∑ j, W i j * v j) + b i

/-- `nn.ReLU` applied elementwise. -/
noncomputable def reluV {n : ℕ} (v : Vec n) : Vec n :=
  fun i => max (v i) 0

/-- `nn.Sigmoid` on one entry: `1 / (1 + exp (-x))`. -/
noncomputable def sigmoid (x : ℝ) : ℝ :=
  1 / (1 + Real.exp (-x))

/-- `nn.Tanh` applied elementwise. -/
noncomputable def tanhV {n : ℕ} (v : Vec n) : Vec n :=
  fun i => Real.tanh (v i)

/-! ### GalaxyVAE -/

/-- The parameters of `GalaxyVAE` (input_dim=9, latent_dim=3): the encoder
stack `Linear(9,16), ReLU, Linear(16,8)`, the two latent heads
`fc_mu, fc_logvar : Linear(8,3)`, and the decoder stack
`Linear(3,8), ReLU, Linear(8,16), ReLU, Linear(16,9), Sigmoid`. -/
structure VAEParams where
  encW1 : Mat 16 9
  encB1 : Vec 16
  encW2 : Mat 8 16
  encB2 : Vec 8
  muW : Mat 3 8
  muB : Vec 3
  lvW : Mat 3 8
  lvB : Vec 3
  decW1 : Mat 8 3
  decB1 : Vec 8
  decW2 : Mat 16 8
  decB2 : Vec 16
  decW3 : Mat 9 16
  decB3 : Vec 9

namespace GalaxyVAE

/-- `GalaxyVAE.encode`: run the encoder stack, return `(mu, logvar)`. -/
noncomputable def encode (p : VAEParams) (x : Vec 9) : Vec 3 × Vec 3 :=
  let h := linear p.encW2 p.encB2 (reluV (linear p.encW1 p.encB1 x))
  (linear p.muW p.muB h, linear p.lvW p.lvB h)

/-- `GalaxyVAE.reparameterize`: `mu + exp(0.5·logvar) ⊙ ε`, with the
standard-normal draw `ε` passed explicitly. -/
noncomputable def reparameterize (mu logvar eps : Vec 3) : Vec 3 :=
  fun i => mu i + Real.exp (0.5 * logvar i) * eps i

/-- The decoder stack of `GalaxyVAE`:
`Linear(3,8), ReLU, Linear(8,16), ReLU, Linear(16,9), Sigmoid`. -/
noncomputable def decode (p : VAEParams) (z : Vec 3) : Vec 9 :=
  fun i =>
    sigmoid (linear p.decW3 p.decB3
      (reluV (linear p.decW2 p.decB2 (reluV (linear p.decW1 p.decB1 z)))) i)

/-- `GalaxyVAE.forward`: encode, reparameterize with noise `eps`, decode;
returns `(x_hat, mu, logvar)`. -/
noncomputable def forward (p : VAEParams) (x : Vec 9) (eps : Vec 3) :
    Vec 9 × Vec 3 × Vec 3 :=
  let ml := encode p x
  let z := reparameterize ml.1 ml.2 eps
  (decode p z, ml.1, ml.2)

end GalaxyVAE

/-! ### GalaxyPINN -/

/-- The parameters of `GalaxyPINN` (input_dim=9, hidden_dim=32): the stack
`Linear(10,32), Tanh, Linear(32,32), Tanh, Linear(32,9)`. -/
structure PINNParams where
  W1 : Mat 32 10
  b1 : Vec 32
  W2 : Mat 32 32
  b2 : Vec 32
  W3 : Mat 9 32
  b3 : Vec 9

/-- The fully-connected stack `self.net` of `GalaxyPINN`. -/
noncomputable def pinnNet (p : PINNParams) (v : Vec 10) : Vec 9 :=
  linear p.W3 p.b3 (tanhV (linear p.W2 p.b2 (tanhV (linear p.W1 p.b1 v))))

/-- The time argument of `GalaxyPINN.forward`: either a 1-dimensional
tensor of length `n`, or an `n × 1` column tensor. -/
inductive TimeTensor (n : ℕ) where
  | dim1 (v : Fin n → ℝ)
  | dim2 (m : Fin n → Fin 1 → ℝ)

/-- `t.unsqueeze(1)`: view a length-`n` vector as an `n × 1` column. -/
def unsqueeze1 {n : ℕ} (v : Fin n → ℝ) : Fin n → Fin 1 → ℝ :=
  fun i _ => v i

namespace GalaxyPINN

/-- `GalaxyPINN.forward`: if `t` is 1-dimensional it is unsqueezed to a
column; then `t` is concatenated to `x` along the feature dimension
(`torch.cat([x, t], dim=1)`) and passed through the net. -/
noncomputable def forward (p : PINNParams) {n : ℕ} (x : Fin n → Vec 9)
    (t : TimeTensor n) : Fin n → Vec 9 :=
  let tc : Fin n → Fin 1 → ℝ :=
    match t with
    | .dim1 v => unsqueeze1 v
    | .dim2 m => m
  fun i => pinnNet p (Fin.snoc (x i) (tc i 0))

end GalaxyPINN

/-! ### Physics residual loss

In the script, `preds` is the network output at the (row-broadcast) time
tensor `t`; `torch.autograd.grad(preds, t, grad_outputs=ones)` yields, at
each row `i`, the derivative of the sum of row `i`'s outputs with respect
to the scalar `t_i`.  We embed `preds` as a family of scalar functions of
the row's time (entry `j` of row `i` is `preds i j : ℝ → ℝ`), so that the
autograd result is the sum over `j` of the mathematical derivatives. -/

/-- `torch.autograd.grad(outputs=preds, inputs=t, grad_outputs=ones)`:
row `i` receives `∑ j, d(preds i j)/dt` evaluated at `t i`. -/
noncomputable def autogradDt {n : ℕ} (preds : Fin n → Fin 9 → ℝ → ℝ)
    (t : Fin n → ℝ) : Fin n → ℝ :=
  fun i => ∑ j, deriv (preds i j) (t i)

/-- `physics_loss(preds, t, weight=0.1)`:
`weight * torch.mean(d_preds_dt ** 2)` where `d_preds_dt` is the autograd
derivative of `preds` with respect to `t`. -/
noncomputable def physics_loss {n : ℕ} (preds : Fin n → Fin 9 → ℝ → ℝ)
    (t : Fin n → ℝ) (weight : ℝ := 0.1) : ℝ :=
  weight * ((∑ i, (autogradDt preds t i) ^ 2) / n)

/-- Restated from the spec's words, for comparison with `physics_loss`:
"weight · mean(d(preds)/dt²)", the weighted mean of the squared time
derivative. -/
noncomputable def specMeanSquaredDeriv {n : ℕ} (preds : Fin n → Fin 9 → ℝ → ℝ)
    (t : Fin n → ℝ) : ℝ :=
  (∑ i, (∑ j, deriv (preds i j) (t i)) ^ 2) / n

/-! ### VAE training loss -/

/-- `vae_loss(x, x_hat, mu, logvar)` from the training block:
`mse_loss(x_hat, x, reduction='sum')` (the sum of squared errors over all
entries) plus `-0.5 * torch.sum(1 + logvar - mu**2 - logvar.exp())`. -/
noncomputable def vae_loss {b : ℕ} (x x_hat : Fin b → Vec 9)
    (mu logvar : Fin b → Vec 3) : ℝ :=
  (∑ i, ∑ j, (x_hat i j - x i j) ^ 2) +
    (-0.5 * ∑ i, ∑ j, (1 + logvar i j - (mu i j) ^ 2 - Real.exp (logvar i j)))

/-- Restated from the spec's words: `sum_of_squared_error(x_hat, x)`,
summed (not averaged) over the batch and feature dimensions. -/
noncomputable def specSumSquaredError {b : ℕ} (x x_hat : Fin b → Vec 9) : ℝ :=
  ∑ i, ∑ j, (x_hat i j - x i j) ^ 2

/-- Restated from the spec's words: the closed-form KL term
`-0.5 · Σ(1 + logvar − mu² − exp(logvar))`, summed over the batch and
latent dimensions. -/
noncomputable def specKLClosedForm {b : ℕ} (mu logvar : Fin b → Vec 3) : ℝ :=
  -0.5 * ∑ i, ∑ j, (1 + logvar i j - (mu i j) ^ 2 - Real.exp (logvar i j))

/-! ### Renderer -/

/-- Python's `int()` conversion on a rational: truncation toward zero
(floor for non-negative values, ceiling for negative ones). -/
def pyInt (q : ℚ) : ℤ :=
  if 0 ≤ q then ⌊q⌋ else ⌈q⌉

/-- Python's `int()` conversion on a real, truncation toward zero. -/
noncomputable def pyIntR (x : ℝ) : ℤ :=
  if 0 ≤ x then ⌊x⌋ else ⌈x⌉

/-- The arm count computed at the top of `draw_spiral_galaxy_features`:
`int(2 + 4 * (P_CW + P_ACW))`, with `P_CW = features[1]` and
`P_ACW = features[2]`.  Stated over ℚ so that concrete feature vectors
evaluate exactly. -/
def num_arms (features : Fin 9 → ℚ) : ℤ :=
  pyInt (2 + 4 * (features 1 + features 2))

/-- `torch.linspace a b steps` (and `np.linspace`), entry `i`:
`a` when `steps = 1`, otherwise `a + (b - a) * i / (steps - 1)`. -/
noncomputable def linspace (a b : ℝ) (steps : ℕ) (i : ℕ) : ℝ :=
  if steps = 1 then a else a + (b - a) * i / ((steps - 1 : ℕ) : ℝ)

/-- `torch.linspace a b steps` as the list of its `steps` entries. -/
noncomputable def linspaceList (a b : ℝ) (steps : ℕ) : List ℝ :=
  (List.range steps).map (linspace a b steps)

/-- One rendered star: a 2-d scatter point. -/
structure StarPoint where
  x : ℝ
  y : ℝ

/-- `draw_spiral_galaxy_features(step, features)`, modelled as the list of
scatter points it draws (the saved PNG is this scatter plot).  The
Gaussian positional jitter `np.random.normal(0, 0.02, num_stars)` is
passed in as an explicit stream `rng` of draws: arm `a` consumes draws
`a*2000 + k` for its x jitter and `a*2000 + 1000 + k` for its y jitter. -/
noncomputable def draw_spiral_galaxy_features (step : ℕ) (features : Vec 9)
    (rng : ℕ → ℝ) : List StarPoint :=
  let spiral_tightness := 0.5 + 3 * (1 - features 0)
  let nArms := (pyIntR (2 + 4 * (features 1 + features 2))).toNat
  let r := fun k => linspace 0.05 1.0 1000 k
  let theta := fun k => r k * spiral_tightness * Real.pi + step * 0.3
  (List.range nArms).flatMap fun arm =>
    (List.range 1000).map fun k =>
      let arm_theta := theta k + (2 * Real.pi / (nArms : ℝ)) * arm
      { x := r k * Real.cos arm_theta + rng (arm * 2000 + k)
        y := r k * Real.sin arm_theta + rng (arm * 2000 + 1000 + k) }

/-! ### Evolution simulation -/

/-- One step of the simulation: the step index (used in the saved
filename `evolution_step_{step:02d}.png`), the evolved feature vector,
and the rendered image. -/
structure SimStep where
  index : ℕ
  features : Vec 9
  image : List StarPoint

/-- `simulate_evolution(pinn, vae, start_state, steps=15)`: evaluate the
trained PINN on the unchanged `start_state` at each of `steps` linspace
time values in [0,1], rendering each evolved feature vector tagged with
the step index.  The renderer's jitter stream for step `i` is `rng i`;
the `vae` argument is unused by the source body and is omitted. -/
noncomputable def simulate_evolution (p : PINNParams) (start_state : Fin 1 → Vec 9)
    (rng : ℕ → ℕ → ℝ) (steps : ℕ := 15) : List SimStep :=
  (List.range steps).map fun i =>
    let t := linspace 0 1 steps i
    let evolved := GalaxyPINN.forward p start_state (.dim2 fun _ _ => t)
    { index := i
      features := evolved 0
      image := draw_spiral_galaxy_features i (evolved 0) (rng i) }

/-! ### GIF assembly -/

/-- The observable outcome of `create_gif`: whether the empty-list
warning was printed, and the list of frames of the saved GIF (`none`
when no GIF file is written). -/
structure GifResult (Img : Type) where
  warned : Bool
  gif : Option (List Img)

/-- Sort key order used by `sorted(glob.glob(...))`: ascending filename.
Filenames `evolution_step_{step:02d}.png` are keyed by their zero-padded
step index, so the lexicographic filename order is the numeric key
order. -/
def byKey {Img : Type} (a b : ℕ × Img) : Prop := a.1 ≤ b.1

instance {Img : Type} : DecidableRel (@byKey Img) :=
  fun a b => inferInstanceAs (Decidable (a.1 ≤ b.1))

instance {Img : Type} : IsTotal (ℕ × Img) byKey :=
  ⟨fun a b => Nat.le_total a.1 b.1⟩

instance {Img : Type} : IsTrans (ℕ × Img) byKey :=
  ⟨fun _ _ _ h h2 => Nat.le_trans h h2⟩

/-- `create_gif`: sort the discovered image files by filename, open
them; if the list is non-empty save one GIF made of the first image with
the rest appended, otherwise print the warning and write nothing.
`found` is the set of `evolution_step_*.png` files found by `glob`, as
(step-index key, image) pairs. -/
def create_gif {Img : Type} (found : List (ℕ × Img)) : GifResult Img :=
  let image_files := found.insertionSort byKey
  let images := image_files.map Prod.snd
  match images with
  | [] => { warned := true, gif := none }
  | img0 :: rest => { warned := false, gif := some (img0 :: rest) }

/-! ### Metric evaluation

Both evaluators binarize the data and the model output at threshold 0.5
(`arr > 0.5`), flatten row-major, and compute accuracy, micro-averaged F1
and a confusion matrix over the flattened boolean arrays, alongside
continuous MSE (`nn.MSELoss()`, mean reduction) and `RMSE = np.sqrt(MSE)`. -/

/-- `(arr > threshold).astype(int).flatten()`: binarize an `m × n` array
at a threshold and flatten it row-major into a boolean list. -/
noncomputable def binFlat {m n : ℕ} (threshold : ℝ) (A : Fin m → Fin n → ℝ) :
    List Bool :=
  (List.finRange m).flatMap fun i =>
    (List.finRange n).map fun j => decide (threshold < A i j)

/-- `nn.MSELoss()` with its default mean reduction on `m × n` arrays. -/
noncomputable def mseLoss {m n : ℕ} (pred target : Fin m → Fin n → ℝ) : ℝ :=
  (∑ i, ∑ j, (pred i j - target i j) ^ 2) / (m * n : ℕ)

/-- `sklearn.metrics.accuracy_score` on flat boolean arrays: the fraction
of positions where prediction and truth agree. -/
noncomputable def accuracy_score (ytrue ypred : List Bool) : ℝ :=
  (((ytrue.zip ypred).countP fun ab => ab.1 == ab.2 : ℕ) : ℝ) / (ytrue.length : ℕ)

/-- Per-class true positives of class `c` on paired (truth, prediction)
labels. -/
def countTP (c : Bool) (pairs : List (Bool × Bool)) : ℕ :=
  pairs.countP fun ab => ab.1 == c && ab.2 == c

/-- Per-class false positives of class `c`. -/
def countFP (c : Bool) (pairs : List (Bool × Bool)) : ℕ :=
  pairs.countP fun ab => !(ab.1 == c) && ab.2 == c

/-- Per-class false negatives of class `c`. -/
def countFN (c : Bool) (pairs : List (Bool × Bool)) : ℕ :=
  pairs.countP fun ab => ab.1 == c && !(ab.2 == c)

/-- `sklearn.metrics.f1_score(..., average='micro')` on flat boolean
labels: pool true/false positives/negatives across both classes and take
`2·TP / (2·TP + FP + FN)`. -/
noncomputable def f1_micro (ytrue ypred : List Bool) : ℝ :=
  let pairs := ytrue.zip ypred
  let tp := countTP false pairs + countTP true pairs
  let fp := countFP false pairs + countFP true pairs
  let fn := countFN false pairs + countFN true pairs
  (2 * tp : ℕ) / ((2 * tp + fp + fn : ℕ) : ℝ)

/-- `sklearn.metrics.confusion_matrix` on flat boolean labels:
entry `(a, b)` counts positions with truth `a` and prediction `b`
(index 0 = false, 1 = true). -/
def confusionMatrix (ytrue ypred : List Bool) : Fin 2 → Fin 2 → ℕ :=
  fun a b =>
    (ytrue.zip ypred).countP fun p => p.1 == decide (a = 1) && p.2 == decide (b = 1)

/-- The record returned by `evaluate_vae` (the plotted confusion-matrix
PNG is the rendering of the `CM` field). -/
structure VaeEval where
  MSE : ℝ
  RMSE : ℝ
  Accuracy : ℝ
  F1Score : ℝ
  CM : Fin 2 → Fin 2 → ℕ

/-- `evaluate_vae(vae, data, threshold=0.5)`: reconstruct the data with
one VAE forward pass (reparameterization noise `eps` passed explicitly),
then compute MSE, `RMSE = np.sqrt(MSE)`, accuracy, micro F1 and the
confusion matrix on the 0.5-binarized flattened arrays. -/
noncomputable def evaluate_vae (p : VAEParams) {m : ℕ} (data : Fin m → Vec 9)
    (eps : Fin m → Vec 3) (threshold : ℝ := 0.5) : VaeEval :=
  let reconstructed : Fin m → Vec 9 := fun i => (GalaxyVAE.forward p (data i) (eps i)).1
  let mse := mseLoss reconstructed data
  let actual_flat := binFlat threshold data
  let pred_flat := binFlat threshold reconstructed
  { MSE := mse
    RMSE := Real.sqrt mse
    Accuracy := accuracy_score actual_flat pred_flat
    F1Score := f1_micro actual_flat pred_flat
    CM := confusionMatrix actual_flat pred_flat }

/-- One per-timepoint record appended to `results` inside
`evaluate_pinn`. -/
structure PinnPointMetrics where
  t : ℝ
  MSE : ℝ
  RMSE : ℝ
  Accuracy : ℝ
  F1Score : ℝ

/-- The record returned by `evaluate_pinn`: the per-timepoint details,
the four metrics averaged across time steps, and the confusion matrix at
the middle time point. -/
structure PinnEval where
  Detail : List PinnPointMetrics
  AverageMSE : ℝ
  AverageRMSE : ℝ
  AverageAccuracy : ℝ
  AverageF1Score : ℝ
  MidCM : Fin 2 → Fin 2 → ℕ

/-- The body of the `for t in t_values` loop of `evaluate_pinn`: predict
at time `t` (broadcast to the batch), and record `t`, MSE,
`RMSE = np.sqrt(MSE)`, accuracy and micro F1 on the 0.5-binarized
flattened arrays. -/
noncomputable def pinnPointRecord (p : PINNParams) {m : ℕ} (data : Fin m → Vec 9)
    (t : ℝ) : PinnPointMetrics :=
  let predictions := GalaxyPINN.forward p data (.dim2 fun _ _ => t)
  let mse := mseLoss predictions data
  let actual_flat := binFlat 0.5 data
  let pred_flat := binFlat 0.5 predictions
  { t := t
    MSE := mse
    RMSE := Real.sqrt mse
    Accuracy := accuracy_score actual_flat pred_flat
    F1Score := f1_micro actual_flat pred_flat }

/-- `np.mean` of a list of reals. -/
noncomputable def npMean (l : List ℝ) : ℝ := l.sum / l.length

/-- `evaluate_pinn(pinn, data, t_values)`: one record per time value,
each metric averaged across the time steps with `np.mean`, and a
confusion matrix at the middle time value `t_values[len(t_values)//2]`. -/
noncomputable def evaluate_pinn (p : PINNParams) {m : ℕ} (data : Fin m → Vec 9)
    (t_values : List ℝ) : PinnEval :=
  let results := t_values.map (pinnPointRecord p data)
  let mid_t := t_values.getD (t_values.length / 2) 0
  let mid_predictions := GalaxyPINN.forward p data (.dim2 fun _ _ => mid_t)
  { Detail := results
    AverageMSE := npMean (results.map fun r => r.MSE)
    AverageRMSE := npMean (results.map fun r => r.RMSE)
    AverageAccuracy := npMean (results.map fun r => r.Accuracy)
    AverageF1Score := npMean (results.map fun r => r.F1Score)
    MidCM := confusionMatrix (binFlat 0.5 data) (binFlat 0.5 mid_predictions) }

/-! ## Theorems -/

/-- The sigmoid output always lies in the unit interval. -/
theorem sigmoid_mem_unit (x : ℝ) : 0 ≤ sigmoid x ∧ sigmoid x ≤ 1 := by
  have hpos : (0 : ℝ) < 1 + Real.exp (-x) := by positivity
  unfold sigmoid
  constructor
  · exact div_nonneg zero_le_one hpos.le
  · rw [div_le_one hpos]
    have := (Real.exp_pos (-x)).le
    linarith

/-- Claim C1: `physics_loss(preds, t, weight=0.1)` equals 0.1 times the mean of
the squared autograd derivative `d(preds)/dt`; consequently it is
non-negative for all inputs, and it equals 0 whenever `preds` is constant
with respect to `t`. -/
theorem physics_loss_spec {n : ℕ} (preds : Fin n → Fin 9 → ℝ → ℝ) (t : Fin n → ℝ) :
    physics_loss preds t 0.1 = 0.1 * specMeanSquaredDeriv preds t ∧
    0 ≤ physics_loss preds t 0.1 ∧
    ((∀ i j x y, preds i j x = preds i j y) → physics_loss preds t 0.1 = 0) := by
  refine ⟨rfl, ?_, ?_⟩
  · have h1 : (0 : ℝ) ≤ ∑ i, (autogradDt preds t i) ^ 2 :=
      Finset.sum_nonneg fun i _ => sq_nonneg _
    have h2 : (0 : ℝ) ≤ (∑ i, (autogradDt preds t i) ^ 2) / n :=
      div_nonneg h1 (Nat.cast_nonneg n)
    unfold physics_loss
    nlinarith
  · intro hconst
    have hzero : ∀ i, autogradDt preds t i = 0 := by
      intro i
      unfold autogradDt
      apply Finset.sum_eq_zero
      intro j _
      have hfun : preds i j = fun _ => preds i j 0 := funext fun y => hconst i j y 0
      rw [hfun]
      exact deriv_const _ _
    simp [physics_loss, hzero]

/-- Witness for C1 at a concrete constant prediction. -/
theorem physics_loss_spec_witness :
    physics_loss (fun _ _ _ => 3 : Fin 1 → Fin 9 → ℝ → ℝ) (fun _ => 0) 0.1 = 0 :=
  (physics_loss_spec (fun _ _ _ => 3 : Fin 1 → Fin 9 → ℝ → ℝ) (fun _ => 0)).2.2
    fun _ _ _ _ => rfl

/-- Claim C2: for every parameter setting, every latent code `z` and every
input `x` with noise `eps`, the decoder output — and hence the
reconstruction returned by `GalaxyVAE.forward` — lies componentwise in
[0,1], because the final sigmoid activation bounds each component. -/
theorem vae_reconstruction_in_unit_interval (p : VAEParams) :
    (∀ (z : Vec 3) (i : Fin 9),
      0 ≤ GalaxyVAE.decode p z i ∧ GalaxyVAE.decode p z i ≤ 1) ∧
    (∀ (x : Vec 9) (eps : Vec 3) (i : Fin 9),
      0 ≤ (GalaxyVAE.forward p x eps).1 i ∧ (GalaxyVAE.forward p x eps).1 i ≤ 1) := by
  have hdec : ∀ (z : Vec 3) (i : Fin 9),
      0 ≤ GalaxyVAE.decode p z i ∧ GalaxyVAE.decode p z i ≤ 1 := by
    intro z i
    unfold GalaxyVAE.decode
    exact sigmoid_mem_unit _
  exact ⟨hdec, fun x eps i => hdec _ i⟩

/-- Claim C3: the VAE training loss is exactly the sum of squared errors plus
the closed-form KL term, both summed (not averaged) over the batch and
feature dimensions. -/
theorem vae_loss_decomposition {b : ℕ} (x x_hat : Fin b → Vec 9)
    (mu logvar : Fin b → Vec 3) :
    vae_loss x x_hat mu logvar =
      specSumSquaredError x x_hat + specKLClosedForm mu logvar := rfl

/-- Claim C9: `GalaxyPINN.forward` treats a 1-dimensional time tensor exactly
like its unsqueezed `n × 1` column, and in both cases each row is the
net applied to the row's features with the time value appended as the
extra input channel. -/
theorem pinn_forward_dim1_eq_dim2 (p : PINNParams) {n : ℕ}
    (x : Fin n → Vec 9) (v : Fin n → ℝ) :
    GalaxyPINN.forward p x (.dim1 v) = GalaxyPINN.forward p x (.dim2 (unsqueeze1 v)) ∧
    ∀ i, GalaxyPINN.forward p x (.dim1 v) i = pinnNet p (Fin.snoc (x i) (v i)) :=
  ⟨rfl, fun _ => rfl⟩

/-- The 1-row synthetic input `[0.9, 0, 0, 0, 0, 0.1, 0.8, 0.9, 0.8]` of
the end-to-end scenario (a clear elliptical: `P_CW = P_ACW = 0`). -/
def syntheticFeatures : Fin 9 → ℚ
  | 0 => 0.9
  | 1 => 0
  | 2 => 0
  | 3 => 0
  | 4 => 0
  | 5 => 0.1
  | 6 => 0.8
  | 7 => 0.9
  | 8 => 0.8

/-- Claim C4: the Renderer derives the arm count as `2 + 4·(P_CW + P_ACW)`
rounded down; for probability inputs with `P_CW + P_ACW ≤ 1` it lies in
the 2–6 range, and on the synthetic input (where `P_CW + P_ACW = 0`) it
is exactly 2. -/
theorem num_arms_bounds_and_boundary :
    (∀ features : Fin 9 → ℚ, 0 ≤ features 1 → 0 ≤ features 2 →
      features 1 + features 2 ≤ 1 →
      2 ≤ num_arms features ∧ num_arms features ≤ 6) ∧
    num_arms syntheticFeatures = 2 := by
  constructor
  · intro f h1 h2 h3
    have hge : (0 : ℚ) ≤ 2 + 4 * (f 1 + f 2) := by linarith
    unfold num_arms pyInt
    rw [if_pos hge]
    constructor
    · exact Int.le_floor.mpr (by push_cast; linarith)
    · calc ⌊(2 + 4 * (f 1 + f 2) : ℚ)⌋ ≤ ⌊(6 : ℚ)⌋ :=
            Int.floor_le_floor (by linarith)
        _ = 6 := by norm_num
  · show pyInt (2 + 4 * (syntheticFeatures 1 + syntheticFeatures 2)) = 2
    norm_num [syntheticFeatures, pyInt]

/-- Witness for C4's bounded-range statement at the synthetic input. -/
theorem num_arms_bounds_witness :
    2 ≤ num_arms syntheticFeatures ∧ num_arms syntheticFeatures ≤ 6 :=
  num_arms_bounds_and_boundary.1 syntheticFeatures
    (by norm_num [syntheticFeatures]) (by norm_num [syntheticFeatures])
    (by norm_num [syntheticFeatures])

/-- Claim C5: two runs of `simulate_evolution` with the same trained weights,
starting vector and step count produce identical sequences of evolved
feature vectors, whatever jitter the Renderer's random streams draw:
the randomness never feeds back into the simulated features. -/
theorem simulate_evolution_deterministic (p : PINNParams)
    (start_state : Fin 1 → Vec 9) (steps : ℕ) (rng1 rng2 : ℕ → ℕ → ℝ) :
    (simulate_evolution p start_state rng1 steps).map SimStep.features =
    (simulate_evolution p start_state rng2 steps).map SimStep.features := by
  simp only [simulate_evolution, List.map_map]
  rfl

/-- Claim C8: with no evolution-step images found, `create_gif` warns and
writes nothing; with a non-empty list it writes a single GIF holding all
found images in ascending filename order. -/
theorem create_gif_empty_guard {Img : Type} (found : List (ℕ × Img)) :
    (found = [] → (create_gif found).warned = true ∧ (create_gif found).gif = none) ∧
    (found ≠ [] →
      (create_gif found).warned = false ∧
      (create_gif found).gif = some ((found.insertionSort byKey).map Prod.snd) ∧
      ((found.insertionSort byKey).map Prod.snd).Perm (found.map Prod.snd) ∧
      ((found.insertionSort byKey).map Prod.fst).Sorted (· ≤ ·)) := by
  constructor
  · rintro rfl
    exact ⟨rfl, rfl⟩
  · intro hne
    have hperm : ((found.insertionSort byKey).map Prod.snd).Perm (found.map Prod.snd) :=
      (List.perm_insertionSort byKey found).map Prod.snd
    have hsorted : ((found.insertionSort byKey).map Prod.fst).Sorted (· ≤ ·) := by
      have hs : (found.insertionSort byKey).Sorted byKey :=
        List.sorted_insertionSort byKey found
      exact List.pairwise_map.mpr hs
    have himg : ∃ a as, (found.insertionSort byKey).map Prod.snd = a :: as := by
      cases hcase : (found.insertionSort byKey).map Prod.snd with
      | nil =>
          exfalso
          have hlen := congrArg List.length hcase
          simp [List.length_insertionSort] at hlen
          exact hne hlen
      | cons a as => exact ⟨a, as, rfl⟩
    obtain ⟨a, as, hcase⟩ := himg
    refine ⟨?_, ?_, hperm, hsorted⟩ <;> simp [create_gif, hcase]

/-- Witness for C8 on a concrete empty and a concrete singleton file
list. -/
theorem create_gif_witness :
    (create_gif ([] : List (ℕ × ℕ))).warned = true ∧
    (create_gif [((0 : ℕ), (5 : ℕ))]).warned = false :=
  ⟨((create_gif_empty_guard ([] : List (ℕ × ℕ))).1 rfl).1,
   ((create_gif_empty_guard [((0 : ℕ), (5 : ℕ))]).2 (by simp)).1⟩

/-- Claim C6: evaluating the PINN at `t_values = linspace(0,1,10)` yields
exactly 10 per-timepoint records, one per time value in order, and an
averaged summary whose four metrics are the `np.mean` of the
corresponding per-timepoint metrics. -/
theorem evaluate_pinn_record_structure (p : PINNParams) {m : ℕ}
    (data : Fin m → Vec 9) :
    (evaluate_pinn p data (linspaceList 0 1 10)).Detail.length = 10 ∧
    (evaluate_pinn p data (linspaceList 0 1 10)).Detail.map PinnPointMetrics.t =
      linspaceList 0 1 10 ∧
    (evaluate_pinn p data (linspaceList 0 1 10)).AverageMSE =
      npMean ((evaluate_pinn p data (linspaceList 0 1 10)).Detail.map fun r => r.MSE) ∧
    (evaluate_pinn p data (linspaceList 0 1 10)).AverageRMSE =
      npMean ((evaluate_pinn p data (linspaceList 0 1 10)).Detail.map fun r => r.RMSE) ∧
    (evaluate_pinn p data (linspaceList 0 1 10)).AverageAccuracy =
      npMean ((evaluate_pinn p data (linspaceList 0 1 10)).Detail.map fun r => r.Accuracy) ∧
    (evaluate_pinn p data (linspaceList 0 1 10)).AverageF1Score =
      npMean ((evaluate_pinn p data (linspaceList 0 1 10)).Detail.map fun r => r.F1Score) := by
  refine ⟨?_, ?_, rfl, rfl, rfl, rfl⟩
  · simp [evaluate_pinn, linspaceList]
  · show ((linspaceList 0 1 10).map (pinnPointRecord p data)).map PinnPointMetrics.t =
      linspaceList 0 1 10
    rw [List.map_map]
    exact List.map_id _

/-- Claim C7: `simulate_evolution` with `n ≥ 2` steps produces one record per
step: record `i` is tagged with index `i` and holds the PINN applied to
the unchanged starting vector at the `i`-th linspace time value; those
time values run from 0 to 1 inclusive with constant spacing; the default
step count is 15. -/
theorem simulate_evolution_steps_spec (p : PINNParams)
    (start_state : Fin 1 → Vec 9) (rng : ℕ → ℕ → ℝ) (n : ℕ) (h : 2 ≤ n) :
    (simulate_evolution p start_state rng n).length = n ∧
    (∀ i, i < n →
      ((simulate_evolution p start_state rng n).getD i ⟨0, fun _ => 0, []⟩).index = i ∧
      ((simulate_evolution p start_state rng n).getD i ⟨0, fun _ => 0, []⟩).features =
        GalaxyPINN.forward p start_state (.dim2 fun _ _ => linspace 0 1 n i) 0 ∧
      ((simulate_evolution p start_state rng n).getD i ⟨0, fun _ => 0, []⟩).image =
        draw_spiral_galaxy_features i
          (GalaxyPINN.forward p start_state (.dim2 fun _ _ => linspace 0 1 n i) 0)
          (rng i)) ∧
    linspace 0 1 n 0 = 0 ∧
    linspace 0 1 n (n - 1) = 1 ∧
    (∀ i, i + 1 < n →
      linspace 0 1 n (i + 1) - linspace 0 1 n i = 1 / (((n - 1 : ℕ) : ℝ))) ∧
    (simulate_evolution p start_state rng).length = 15 := by
  have hn1 : n ≠ 1 := by omega
  refine ⟨?_, ?_, ?_, ?_, ?_, ?_⟩
  · simp [simulate_evolution]
  · intro i hi
    have hl : i < (simulate_evolution p start_state rng n).length := by
      simpa [simulate_evolution] using hi
    rw [List.getD_eq_getElem _ _ hl]
    simp [simulate_evolution]
  · simp [linspace, hn1]
  · have hpos : (0 : ℝ) < ((n - 1 : ℕ) : ℝ) := by
      have h1 : 1 ≤ n - 1 := by omega
      exact_mod_cast Nat.lt_of_lt_of_le Nat.zero_lt_one h1
    simp only [linspace, hn1, if_false, Nat.cast_zero, Nat.cast_one]
    rw [sub_zero, one_mul, zero_add, div_self hpos.ne']
  · intro i hi
    simp only [linspace, hn1, if_false]
    rw [sub_zero, one_mul, one_mul, zero_add, zero_add, div_sub_div_same]
    push_cast
    ring_nf
  · simp [simulate_evolution]

/-- A PINN whose weights and biases are all zero, used to witness the
simulation-shape theorem at a concrete input. -/
def zeroPINN : PINNParams :=
  ⟨fun _ _ => 0, fun _ => 0, fun _ _ => 0, fun _ => 0, fun _ _ => 0, fun _ => 0⟩

/-- Witness for C7 at the zero PINN, zero start state and 2 steps. -/
theorem simulate_evolution_steps_witness :
    (simulate_evolution zeroPINN (fun _ _ => 0) (fun _ _ => 0) 2).length = 2 :=
  (simulate_evolution_steps_spec zeroPINN (fun _ _ => 0) (fun _ _ => 0) 2
    (by norm_num)).1

/-- Claim C10: in the record produced by `evaluate_vae` and in every
per-timepoint record produced by `evaluate_pinn`, the reported RMSE is
the square root of that record's reported MSE. -/
theorem rmse_is_sqrt_mse (pv : VAEParams) (pp : PINNParams) {m : ℕ}
    (data : Fin m → Vec 9) (eps : Fin m → Vec 3) (t_values : List ℝ) :
    (evaluate_vae pv data eps).RMSE = Real.sqrt ((evaluate_vae pv data eps).MSE) ∧
    (evaluate_pinn pp data t_values).Detail.map PinnPointMetrics.RMSE =
      (evaluate_pinn pp data t_values).Detail.map fun r => Real.sqrt r.MSE := by
  refine ⟨rfl, ?_⟩
  show (t_values.map (pinnPointRecord pp data)).map PinnPointMetrics.RMSE =
    (t_values.map (pinnPointRecord pp data)).map fun r => Real.sqrt r.MSE
  rw [List.map_map, List.map_map]
  rfl

end Galaxy
